import Mathlib

/-!
Verification development for the CAP_Parser repository (two Python scripts:
`cap_parser.py` and `resolve_cap_id.py`).

The JSON documents handled by the scripts are modelled structurally.  A JSON
object field that the code reads with `d.get(key, {}) or {}` can be absent,
present with value `null`, or present with an object value; this three-valued
shape is `PyField`.  Plain list/string fields read with `d.get(key, default)`
are modelled as `Option`.  Keys of the JSON objects that the code never reads
or writes are modelled by an opaque `Extra` payload carried through unchanged.

Network access is modelled by a `Directory` oracle (one function per endpoint
family) and every resolver run also returns the ordered list of `Request`s it
issued, so "no network access" is the statement that this list is empty.
-/

/-- Three-valued JSON field: absent from the object, present as `null`, or
present with a value.  Mirrors what Python's `d.get(k, {}) or {}` has to
distinguish. -/
inductive PyField (α : Type) where
  | missing : PyField α
  | null : PyField α
  | val : α → PyField α
deriving DecidableEq

/-- Python `d.get(k, default) or default` for an object-valued key: an absent
key, a `null` value and (vacuously) an empty object all collapse to the
default. -/
def PyField.orDefault {α : Type} : PyField α → α → α
  | .val x, _ => x
  | _, d => d

/-- Opaque stand-in for JSON object entries the scripts never touch. -/
abbrev Extra : Type := List (String × String)

/-- The `conditions.users` object of a policy. -/
structure UsersCond where
  includeUsers : Option (List String)
  excludeUsers : Option (List String)
  includeGroups : Option (List String)
  rest : Extra
deriving DecidableEq

/-- The `conditions.applications` object of a policy. -/
structure AppsCond where
  includeApplications : Option (List String)
  excludeApplications : Option (List String)
  rest : Extra
deriving DecidableEq

/-- The `conditions.locations` object of a policy. -/
structure LocsCond where
  includeLocations : Option (List String)
  excludeLocations : Option (List String)
  rest : Extra
deriving DecidableEq

/-- The `conditions.devicePlatforms` object of a policy. -/
structure PlatsCond where
  includePlatforms : Option (List String)
  excludePlatforms : Option (List String)
  rest : Extra
deriving DecidableEq

/-- The `conditions` object of a policy. -/
structure Conditions where
  users : PyField UsersCond
  applications : PyField AppsCond
  locations : PyField LocsCond
  devicePlatforms : PyField PlatsCond
  userRiskLevels : Option (List String)
  signInRiskLevels : Option (List String)
  rest : Extra
deriving DecidableEq

/-- The `grantControls` object of a policy. -/
structure GrantControls where
  builtInControls : Option (List String)
  customAuthenticationFactors : Option (List String)
  operator : Option String
  rest : Extra
deriving DecidableEq

/-- One raw Conditional Access policy record.  `sessionControls` is a JSON
object whose values the code never reads (`list(session_controls.keys())`), so
it is modelled as its list of keys. -/
structure PolicyRecord where
  displayName : Option String
  state : Option String
  conditions : PyField Conditions
  grantControls : PyField GrantControls
  sessionControls : PyField (List String)
  rest : Extra
deriving DecidableEq

/-- The input document: a JSON object with a `value` array of policy records
(`data.get("value", [])`). -/
structure Document where
  value : Option (List PolicyRecord)
  rest : Extra
deriving DecidableEq

/-- A `conditions.users` object with no keys, as produced by
`cond.get("users", {}) or {}` when the key is absent or null. -/
def emptyUsersCond : UsersCond := ⟨none, none, none, []⟩

/-- A `conditions.applications` object with no keys. -/
def emptyAppsCond : AppsCond := ⟨none, none, []⟩

/-- A `conditions.locations` object with no keys. -/
def emptyLocsCond : LocsCond := ⟨none, none, []⟩

/-- A `conditions.devicePlatforms` object with no keys. -/
def emptyPlatsCond : PlatsCond := ⟨none, none, []⟩

/-- A `conditions` object with no keys. -/
def emptyConditions : Conditions := ⟨.missing, .missing, .missing, .missing, none, none, []⟩

/-- A `grantControls` object with no keys. -/
def emptyGrantControls : GrantControls := ⟨none, none, none, []⟩

/-- The flattened summary dictionary returned by `summarize_policy`.  Field
names follow the dictionary keys: `Name`, `State`, `Included Users`,
`Excluded Users`, `Included Groups`, `Included Applications`,
`Excluded Applications`, `Grant Controls`, `Grant Operator`,
`Session Controls`, `User Risk Levels`, `Sign-in Risk Levels`,
`Device Platforms.include/exclude`, `Locations.include/exclude`. -/
structure PolicySummary where
  name : String
  state : String
  includedUsers : List String
  excludedUsers : List String
  includedGroups : List String
  includedApplications : List String
  excludedApplications : List String
  grantControls : List String
  grantOperator : String
  sessionControls : List String
  userRiskLevels : List String
  signInRiskLevels : List String
  platformsInclude : List String
  platformsExclude : List String
  locationsInclude : List String
  locationsExclude : List String
deriving DecidableEq

/-- Embedding of `cap_parser.summarize_policy`: extract key information from a
Conditional Access policy, with explicit defaults for absent fields. -/
def summarize_policy (policy : PolicyRecord) : PolicySummary :=
  let conditions := policy.conditions.orDefault emptyConditions
  let users := conditions.users.orDefault emptyUsersCond
  let apps := conditions.applications.orDefault emptyAppsCond
  let locations := conditions.locations.orDefault emptyLocsCond
  let device_platforms := conditions.devicePlatforms.orDefault emptyPlatsCond
  let grant_controls := policy.grantControls.orDefault emptyGrantControls
  { name := policy.displayName.getD "Unknown"
    state := policy.state.getD "unknown"
    includedUsers := users.includeUsers.getD []
    excludedUsers := users.excludeUsers.getD []
    includedGroups := users.includeGroups.getD []
    includedApplications := apps.includeApplications.getD []
    excludedApplications := apps.excludeApplications.getD []
    grantControls :=
      grant_controls.builtInControls.getD [] ++
        grant_controls.customAuthenticationFactors.getD []
    grantOperator := grant_controls.operator.getD "AND"
    sessionControls := policy.sessionControls.orDefault []
    userRiskLevels := conditions.userRiskLevels.getD []
    signInRiskLevels := conditions.signInRiskLevels.getD []
    platformsInclude := device_platforms.includePlatforms.getD []
    platformsExclude := device_platforms.excludePlatforms.getD []
    locationsInclude := locations.includeLocations.getD []
    locationsExclude := locations.excludeLocations.getD [] }

/-- ASCII lower-casing of a string, character by character — the behaviour of
Python's `str.lower()` on the ASCII control names handled here. -/
def py_lower (s : String) : String := ⟨s.data.map Char.toLower⟩

/-- Python's `needle in hay` substring test, as contiguous-sublist containment
on the character lists. -/
def py_substring (needle hay : String) : Bool := decide (needle.data <:+: hay.data)

/-- Embedding of `cap_parser.is_mfa_policy`: true when any grant-control entry,
lower-cased, contains `mfa` or `multifactor`. -/
def is_mfa_policy (summary : PolicySummary) : Bool :=
  summary.grantControls.any fun g =>
    py_substring "mfa" (py_lower g) || py_substring "multifactor" (py_lower g)

/-- A security concern emitted by `generate_security_flags`; the constructor
identifies which rule fired and the payload interpolated into the message
string (the surrounding message text is presentation only). -/
inductive Issue where
  | mfaExclusions : List String → Issue
  | userRisk : List String → Issue
  | signinRisk : List String → Issue
  | platformInclude : List String → Issue
  | platformExclude : List String → Issue
  | locationInclude : List String → Issue
  | locationExclude : List String → Issue
  | grantOperatorOr : List String → Issue
deriving DecidableEq

/-- MFA-exclusion rule of `generate_security_flags`: only evaluated when the
policy is an MFA policy; fires when `Excluded Users + Included Groups` is
non-empty (truthiness of the concatenated list). -/
def mfa_exclusion_issues (summary : PolicySummary) : List Issue :=
  if is_mfa_policy summary then
    if summary.excludedUsers ++ summary.includedGroups = [] then []
    else [Issue.mfaExclusions (summary.excludedUsers ++ summary.includedGroups)]
  else []

/-- Risk-level rules of `generate_security_flags`. -/
def risk_issues (summary : PolicySummary) : List Issue :=
  (if summary.userRiskLevels = [] then [] else [Issue.userRisk summary.userRiskLevels]) ++
    (if summary.signInRiskLevels = [] then [] else [Issue.signinRisk summary.signInRiskLevels])

/-- Device-platform rules of `generate_security_flags`. -/
def platform_issues (summary : PolicySummary) : List Issue :=
  (if summary.platformsInclude ≠ [] ∧ summary.platformsInclude ≠ ["all"] then
      [Issue.platformInclude summary.platformsInclude]
    else []) ++
    (if summary.platformsExclude = [] then [] else [Issue.platformExclude summary.platformsExclude])

/-- Location rules of `generate_security_flags`. -/
def location_issues (summary : PolicySummary) : List Issue :=
  (if summary.locationsInclude ≠ [] ∧ summary.locationsInclude ≠ ["all"] then
      [Issue.locationInclude summary.locationsInclude]
    else []) ++
    (if summary.locationsExclude = [] then [] else [Issue.locationExclude summary.locationsExclude])

/-- Grant-operator rule of `generate_security_flags`. -/
def operator_issues (summary : PolicySummary) : List Issue :=
  if summary.grantOperator = "OR" then [Issue.grantOperatorOr summary.grantControls] else []

/-- All issues `generate_security_flags` accumulates for one policy summary,
in source order. -/
def policy_issues (summary : PolicySummary) : List Issue :=
  mfa_exclusion_issues summary ++ risk_issues summary ++ platform_issues summary ++
    location_issues summary ++ operator_issues summary

/-- One entry of the findings list returned by `generate_security_flags`. -/
structure SecurityFinding where
  policy : String
  state : String
  securityConcerns : List Issue
deriving DecidableEq

/-- Embedding of `cap_parser.generate_security_flags`: policies with at least
one issue contribute one finding each, in order. -/
def generate_security_flags (policies : List PolicyRecord) : List SecurityFinding :=
  policies.foldr
    (fun policy findings =>
      let summary := summarize_policy policy
      let issues := policy_issues summary
      if issues = [] then findings
      else ⟨summary.name, summary.state, issues⟩ :: findings)
    []

/-!
Embedding of `resolve_cap_id.py`.  The Microsoft Graph service is modelled by
a `Directory` oracle; each HTTP request the script would issue is recorded as
a `Request` value in the order of issue.
-/

/-- One HTTP request of the resolver: `objLookup e i` is
`GET {GRAPH_URL}/{e}/{i}` and `appIdFilter e i` is
`GET {GRAPH_URL}/{e}?$filter=appId eq '{i}'`. -/
inductive Request where
  | objLookup : String → String → Request
  | appIdFilter : String → String → Request
deriving DecidableEq

/-- Body of a found (HTTP 200) directory object response: the three name
fields the script reads.  `none` models an absent key (`d.get(k)` is `None`). -/
structure DirObject where
  displayName : Option String
  appDisplayName : Option String
  userPrincipalName : Option String
deriving DecidableEq

/-- The directory service: `obj e i` is the response to `objLookup e i`
(`none` = not found / non-200) and `appIdQuery e i` is the response to
`appIdFilter e i` (`none` = non-200, otherwise the `value` list). -/
structure Directory where
  obj : String → String → Option DirObject
  appIdQuery : String → String → Option (List DirObject)

/-- Python's `x or y` for an optional string: `None` and the empty string are
falsy and fall through to `y`. -/
def py_str_or (x : Option String) (y : String) : String :=
  match x with
  | some s => if s = "" then y else s
  | none => y

/-- A hexadecimal digit or a dash — the character class of the GUID regex. -/
def is_guid_char (c : Char) : Bool :=
  c.isDigit || (decide ('a' ≤ c) && decide (c ≤ 'f')) ||
    (decide ('A' ≤ c) && decide (c ≤ 'F')) || c == '-'

/-- Embedding of `is_guid`: full match of `[0-9a-fA-F-]{36}`. -/
def is_guid (value : String) : Bool :=
  value.data.length == 36 && value.data.all is_guid_char

/-- The resolution cache, a dictionary from id to resolved display name.  The
resolver only ever inserts fresh keys, so prepending preserves the dictionary
lookup semantics. -/
abbrev Cache : Type := List (String × String)

/-- First-match association lookup — dictionary indexing. -/
def assoc_find (m : List (String × String)) (k : String) : Option String :=
  match m with
  | [] => none
  | (k2, v) :: rest => if k2 = k then some v else assoc_find rest k

/-- The fixed probe order of the object-id loop in `resolve_display_name`. -/
def object_probe_entities : List String :=
  ["servicePrincipals", "applications", "users", "groups"]

/-- The fixed probe order of the appId-filter loop in `resolve_display_name`. -/
def appid_probe_entities : List String := ["servicePrincipals", "applications"]

/-- The object-id probe loop of `resolve_display_name`: try each entity type
in order, stop at the first found response, record every request issued.  The
name for a found object is `displayName or appDisplayName or
userPrincipalName or object_id`. -/
def probe_objects (dir : Directory) (object_id : String) :
    List String → Option String × List Request
  | [] => (none, [])
  | entity :: entities =>
    match dir.obj entity object_id with
    | some data =>
      (some (py_str_or data.displayName (py_str_or data.appDisplayName
          (py_str_or data.userPrincipalName object_id))),
        [Request.objLookup entity object_id])
    | none =>
      let (result, requests) := probe_objects dir object_id entities
      (result, Request.objLookup entity object_id :: requests)

/-- The appId-filter probe loop of `resolve_display_name`: a non-200 response
and a 200 response with an empty `value` list both fall through to the next
entity; a non-empty list resolves to
`first.displayName or first.appDisplayName or object_id`. -/
def probe_appid (dir : Directory) (object_id : String) :
    List String → Option String × List Request
  | [] => (none, [])
  | entity :: entities =>
    match dir.appIdQuery entity object_id with
    | some (data :: _) =>
      (some (py_str_or data.displayName (py_str_or data.appDisplayName object_id)),
        [Request.appIdFilter entity object_id])
    | _ =>
      let (result, requests) := probe_appid dir object_id entities
      (result, Request.appIdFilter entity object_id :: requests)

/-- Embedding of `resolve_display_name`: cached ids return immediately with no
requests; otherwise the object-id probes run in fixed order, then (for
GUID-shaped ids) the appId probes, and every outcome — including the raw-id
fallback — is written to the cache before returning.  The result is the
resolved name, the updated cache, and the requests issued. -/
def resolve_display_name (dir : Directory) (object_id : String) (cache : Cache) :
    String × Cache × List Request :=
  match assoc_find cache object_id with
  | some cached => (cached, cache, [])
  | none =>
    let (probed, requests1) := probe_objects dir object_id object_probe_entities
    match probed with
    | some display_name => (display_name, (object_id, display_name) :: cache, requests1)
    | none =>
      if is_guid object_id then
        let (filtered, requests2) := probe_appid dir object_id appid_probe_entities
        match filtered with
        | some display_name =>
          (display_name, (object_id, display_name) :: cache, requests1 ++ requests2)
        | none => (object_id, (object_id, object_id) :: cache, requests1 ++ requests2)
      else
        (object_id, (object_id, object_id) :: cache, requests1)

/-- One `{id, displayName}` entry of a named-locations page; an absent
`displayName` falls back to the id (`loc.get("displayName", loc["id"])`). -/
structure NamedLoc where
  id : String
  displayName : Option String
deriving DecidableEq

/-- One page of the paged named-locations collection: its `value` list and the
optional `@odata.nextLink` continuation cursor. -/
structure LocPage where
  value : List NamedLoc
  nextLink : Option String
deriving DecidableEq

/-- The named-location lookup table (a dictionary id → display name). -/
abbrev LocMap : Type := List (String × String)

/-- Replace the value stored at a key, keeping its position — the in-place
update half of Python dictionary assignment. -/
def dict_overwrite (k v : String) : List (String × String) → List (String × String)
  | [] => []
  | (k2, w) :: rest =>
    if k2 = k then (k, v) :: dict_overwrite k v rest
    else (k2, w) :: dict_overwrite k v rest

/-- Python dictionary assignment `m[k] = v`: overwrite in place when the key
exists, append otherwise. -/
def dict_insert (m : List (String × String)) (k v : String) :
    List (String × String) :=
  if (assoc_find m k).isSome then dict_overwrite k v m
  else m ++ [(k, v)]

/-- Insert every location of one page into the accumulating dictionary. -/
def insert_page (m : LocMap) (locs : List NamedLoc) : LocMap :=
  locs.foldl (fun m loc => dict_insert m loc.id (loc.displayName.getD loc.id)) m

/-- The `while url:` loop of `get_named_locations`, run against the chain of
page responses the service returns: each page's locations are accumulated and
the loop continues exactly while a continuation cursor is present. -/
def get_named_locations_loop (pages : List LocPage) (acc : LocMap) : LocMap :=
  match pages with
  | [] => acc
  | page :: rest =>
    let acc2 := insert_page acc page.value
    match page.nextLink with
    | some _ => get_named_locations_loop rest acc2
    | none => acc2

/-- Embedding of `get_named_locations`: fold the page chain into one mapping,
starting from the empty dictionary. -/
def get_named_locations (pages : List LocPage) : LocMap :=
  get_named_locations_loop pages []

/-- A response chain is well-linked when every page except the last carries a
continuation cursor and the last does not. -/
def chained : List LocPage → Bool
  | [] => true
  | [page] => page.nextLink.isNone
  | page :: rest => page.nextLink.isSome && chained rest

/-- One list comprehension `[resolve_display_name(i, token, cache) for i in ids]`:
resolve each id left to right, threading the shared cache and concatenating
the request logs. -/
def resolve_list (dir : Directory) (ids : List String) (cache : Cache) :
    List String × Cache × List Request :=
  match ids with
  | [] => ([], cache, [])
  | i :: rest =>
    let r1 := resolve_display_name dir i cache
    let r2 := resolve_list dir rest r1.2.1
    (r1.1 :: r2.1, r2.2.1, r1.2.2 ++ r2.2.2)

/-- The three user-key assignments of `replace_ids_with_names` on a present
`users` object: each key is set to the resolved version of its previous value
(absent keys read as `[]` and are created). -/
def rewrite_users (dir : Directory) (users : UsersCond) (cache : Cache) :
    UsersCond × Cache × List Request :=
  let r1 := resolve_list dir (users.includeUsers.getD []) cache
  let r2 := resolve_list dir (users.excludeUsers.getD []) r1.2.1
  let r3 := resolve_list dir (users.includeGroups.getD []) r2.2.1
  (⟨some r1.1, some r2.1, some r3.1, users.rest⟩, r3.2.1, r1.2.2 ++ r2.2.2 ++ r3.2.2)

/-- The two application-key assignments of `replace_ids_with_names` on a
present `applications` object. -/
def rewrite_apps (dir : Directory) (apps : AppsCond) (cache : Cache) :
    AppsCond × Cache × List Request :=
  let r1 := resolve_list dir (apps.includeApplications.getD []) cache
  let r2 := resolve_list dir (apps.excludeApplications.getD []) r1.2.1
  (⟨some r1.1, some r2.1, apps.rest⟩, r2.2.1, r1.2.2 ++ r2.2.2)

/-- The two location-key assignments of `replace_ids_with_names` on a present
`locations` object: a pure dictionary lookup `named_locations.get(lid, lid)`. -/
def rewrite_locs (named_locations : LocMap) (locs : LocsCond) : LocsCond :=
  ⟨some ((locs.includeLocations.getD []).map fun lid =>
      (assoc_find named_locations lid).getD lid),
    some ((locs.excludeLocations.getD []).map fun lid =>
      (assoc_find named_locations lid).getD lid),
    locs.rest⟩

/-- One iteration of the policy loop of `replace_ids_with_names`.  When
`conditions` (resp. `users`, `applications`, `locations`) is absent or null,
Python builds a fresh empty dictionary, the assignments land on that fresh
dictionary, and the policy is left unchanged with no resolver calls (all the
comprehensions run over `[]`). -/
def rewrite_policy (dir : Directory) (named_locations : LocMap)
    (policy : PolicyRecord) (cache : Cache) : PolicyRecord × Cache × List Request :=
  match policy.conditions with
  | .val cond =>
    let usersR : PyField UsersCond × Cache × List Request :=
      match cond.users with
      | .val u =>
        let r := rewrite_users dir u cache
        (PyField.val r.1, r.2.1, r.2.2)
      | other => (other, cache, [])
    let appsR : PyField AppsCond × Cache × List Request :=
      match cond.applications with
      | .val a =>
        let r := rewrite_apps dir a usersR.2.1
        (PyField.val r.1, r.2.1, r.2.2)
      | other => (other, usersR.2.1, [])
    let locs2 :=
      match cond.locations with
      | .val l => PyField.val (rewrite_locs named_locations l)
      | other => other
    ({ policy with
        conditions := .val
          { cond with users := usersR.1, applications := appsR.1, locations := locs2 } },
      appsR.2.1, usersR.2.2 ++ appsR.2.2)
  | _ => (policy, cache, [])

/-- The policy loop of `replace_ids_with_names` over `data["value"]`. -/
def rewrite_policies (dir : Directory) (named_locations : LocMap) :
    List PolicyRecord → Cache → List PolicyRecord × Cache × List Request
  | [], cache => ([], cache, [])
  | policy :: rest, cache =>
    let r1 := rewrite_policy dir named_locations policy cache
    let r2 := rewrite_policies dir named_locations rest r1.2.1
    (r1.1 :: r2.1, r2.2.1, r1.2.2 ++ r2.2.2)

/-- Embedding of `replace_ids_with_names`: mutate every policy of
`data.get("value", [])` in place and return the document, together with the
final cache and the requests issued through the resolver. -/
def replace_ids_with_names (dir : Directory) (data : Document) (cache : Cache)
    (named_locations : LocMap) : Document × Cache × List Request :=
  match data.value with
  | some policies =>
    let r := rewrite_policies dir named_locations policies cache
    ({ data with value := some r.1 }, r.2.1, r.2.2)
  | none => (data, cache, [])

/-- All identifiers the rewrite pass feeds to the resolver: the five identity
lists of every policy whose `conditions` and `users`/`applications` objects
are present. -/
def policy_resolved_ids (policy : PolicyRecord) : List String :=
  match policy.conditions with
  | .val cond =>
    (match cond.users with
      | .val u => u.includeUsers.getD [] ++ u.excludeUsers.getD [] ++ u.includeGroups.getD []
      | _ => []) ++
      (match cond.applications with
        | .val a => a.includeApplications.getD [] ++ a.excludeApplications.getD []
        | _ => [])
  | _ => []

/-- All identifiers the rewrite pass feeds to the resolver, over the whole
document. -/
def document_resolved_ids (data : Document) : List String :=
  (data.value.getD []).flatMap policy_resolved_ids

/-- Modelled from the spec (§4.4 Rewrite Pass): replace each identifier in the
five identity lists with its resolved name from the identity cache, falling
back to the raw id if absent from the cache, and each location id with its
name from the location map (raw id fallback); a pure transformation of the
document, the cache and the location map.  Structure handling mirrors the
document shape ("structurally identical to the input"). -/
def rewrite_spec_users (cache : Cache) (users : UsersCond) : UsersCond :=
  ⟨some ((users.includeUsers.getD []).map fun i => (assoc_find cache i).getD i),
    some ((users.excludeUsers.getD []).map fun i => (assoc_find cache i).getD i),
    some ((users.includeGroups.getD []).map fun i => (assoc_find cache i).getD i),
    users.rest⟩

/-- Modelled from the spec (§4.4): cache-lookup replacement on the
`applications` object. -/
def rewrite_spec_apps (cache : Cache) (apps : AppsCond) : AppsCond :=
  ⟨some ((apps.includeApplications.getD []).map fun i => (assoc_find cache i).getD i),
    some ((apps.excludeApplications.getD []).map fun i => (assoc_find cache i).getD i),
    apps.rest⟩

/-- Modelled from the spec (§4.4): the pure rewrite of one policy. -/
def rewrite_spec_policy (cache : Cache) (named_locations : LocMap)
    (policy : PolicyRecord) : PolicyRecord :=
  match policy.conditions with
  | .val cond =>
    { policy with
        conditions := .val
          { cond with
              users :=
                match cond.users with
                | .val u => .val (rewrite_spec_users cache u)
                | other => other,
              applications :=
                match cond.applications with
                | .val a => .val (rewrite_spec_apps cache a)
                | other => other,
              locations :=
                match cond.locations with
                | .val l => .val (rewrite_locs named_locations l)
                | other => other } }
  | _ => policy

/-- Modelled from the spec (§4.4): the pure rewrite of the whole document — no
network, no cache mutation. -/
def rewrite_spec (data : Document) (cache : Cache) (named_locations : LocMap) :
    Document :=
  { data with
      value := data.value.map fun policies =>
        policies.map (rewrite_spec_policy cache named_locations) }

/-- Erase the seven identifier list fields the rewrite pass may write
(`includeUsers`, `excludeUsers`, `includeGroups`, `includeApplications`,
`excludeApplications`, `includeLocations`, `excludeLocations`); two policies
equal after erasure agree on every other field. -/
def scrub_id_fields (policy : PolicyRecord) : PolicyRecord :=
  { policy with
      conditions :=
        match policy.conditions with
        | .val cond => .val
          { cond with
              users :=
                match cond.users with
                | .val u => .val { u with includeUsers := none, excludeUsers := none, includeGroups := none }
                | other => other,
              applications :=
                match cond.applications with
                | .val a => .val { a with includeApplications := none, excludeApplications := none }
                | other => other,
              locations :=
                match cond.locations with
                | .val l => .val { l with includeLocations := none, excludeLocations := none }
                | other => other }
        | other => other }

/-!
Theorems.
-/

/-- A policy summary whose only non-default field is `Grant Controls`, used to
exercise the classifier at concrete inputs. -/
def summary_of_grants (grants : List String) : PolicySummary :=
  ⟨"Unknown", "unknown", [], [], [], [], [], grants, "AND", [], [], [], [], [], [], []⟩

/-- C9: `is_mfa_policy` is true exactly when some grant-control entry,
lower-cased, contains the substring `mfa` or the substring `multifactor`; in
particular it is true for `["Mfa"]` and `["requireMultifactorAuthentication"]`
and false for `["compliantDevice"]`. -/
theorem is_mfa_policy_characterisation :
    (∀ s : PolicySummary,
        is_mfa_policy s = true ↔
          ∃ g ∈ s.grantControls,
            "mfa".data <:+: (py_lower g).data ∨ "multifactor".data <:+: (py_lower g).data) ∧
      is_mfa_policy (summary_of_grants ["Mfa"]) = true ∧
      is_mfa_policy (summary_of_grants ["requireMultifactorAuthentication"]) = true ∧
      is_mfa_policy (summary_of_grants ["compliantDevice"]) = false := by
  refine ⟨fun s => ?_, by decide, by decide, by decide⟩
  simp [is_mfa_policy, py_substring, List.any_eq_true]

/-- No MFA-exclusion issue hides in the risk-level block. -/
theorem mfaExclusions_not_in_risk (s : PolicySummary) (l : List String) :
    Issue.mfaExclusions l ∉ risk_issues s := by
  unfold risk_issues; split_ifs <;> simp

/-- No MFA-exclusion issue hides in the device-platform block. -/
theorem mfaExclusions_not_in_platform (s : PolicySummary) (l : List String) :
    Issue.mfaExclusions l ∉ platform_issues s := by
  unfold platform_issues; split_ifs <;> simp

/-- No MFA-exclusion issue hides in the location block. -/
theorem mfaExclusions_not_in_location (s : PolicySummary) (l : List String) :
    Issue.mfaExclusions l ∉ location_issues s := by
  unfold location_issues; split_ifs <;> simp

/-- No MFA-exclusion issue hides in the grant-operator block. -/
theorem mfaExclusions_not_in_operator (s : PolicySummary) (l : List String) :
    Issue.mfaExclusions l ∉ operator_issues s := by
  unfold operator_issues; split_ifs <;> simp

/-- C2: for every policy summary, an MFA-exclusion concern is emitted by the
security-flag engine iff the MFA test holds and `Excluded Users` or
`Included Groups` is non-empty; with the MFA test false no such concern is
emitted. -/
theorem mfa_exclusion_concern_iff (s : PolicySummary) :
    (∃ l, Issue.mfaExclusions l ∈ policy_issues s) ↔
      is_mfa_policy s = true ∧ (s.excludedUsers ≠ [] ∨ s.includedGroups ≠ []) := by
  constructor
  · rintro ⟨l, hl⟩
    simp only [policy_issues, List.mem_append] at hl
    have hm : Issue.mfaExclusions l ∈ mfa_exclusion_issues s := by
      rcases hl with ((((h | h) | h) | h) | h)
      · exact h
      · exact absurd h (mfaExclusions_not_in_risk s l)
      · exact absurd h (mfaExclusions_not_in_platform s l)
      · exact absurd h (mfaExclusions_not_in_location s l)
      · exact absurd h (mfaExclusions_not_in_operator s l)
    unfold mfa_exclusion_issues at hm
    split_ifs at hm with h1 h2
    · simp at hm
    · refine ⟨h1, ?_⟩
      rw [List.append_eq_nil] at h2
      tauto
    · simp at hm
  · rintro ⟨h1, h2⟩
    refine ⟨s.excludedUsers ++ s.includedGroups, ?_⟩
    simp only [policy_issues, List.mem_append]
    left; left; left; left
    unfold mfa_exclusion_issues
    rw [if_pos h1, if_neg]
    · simp
    · rw [List.append_eq_nil]; tauto

/-- C2 witness: a summary granting `["Mfa"]` with one excluded user triggers
the MFA-exclusion concern. -/
theorem mfa_exclusion_concern_iff_witness :
    ∃ l, Issue.mfaExclusions l ∈
      policy_issues { summary_of_grants ["Mfa"] with excludedUsers := ["u-1"] } :=
  (mfa_exclusion_concern_iff _).mpr ⟨by decide, Or.inl (by decide)⟩

/-- C7: the normalizer fills explicit defaults — a policy with no
`grantControls` object gets operator `AND` and empty controls; a present
`grantControls` object yields `builtInControls ++ customAuthenticationFactors`
(in that order) and operator defaulting to `AND`; missing `conditions` and
`sessionControls` objects normalize to empty lists everywhere. -/
theorem summarize_policy_defaults :
    (∀ p : PolicyRecord, p.grantControls = .missing →
        (summarize_policy p).grantOperator = "AND" ∧ (summarize_policy p).grantControls = []) ∧
      (∀ (p : PolicyRecord) (gc : GrantControls), p.grantControls = .val gc →
        (summarize_policy p).grantControls =
            gc.builtInControls.getD [] ++ gc.customAuthenticationFactors.getD [] ∧
          (summarize_policy p).grantOperator = gc.operator.getD "AND") ∧
      (∀ p : PolicyRecord, p.conditions = .missing →
        (summarize_policy p).includedUsers = [] ∧
          (summarize_policy p).excludedUsers = [] ∧
          (summarize_policy p).includedGroups = [] ∧
          (summarize_policy p).includedApplications = [] ∧
          (summarize_policy p).excludedApplications = [] ∧
          (summarize_policy p).userRiskLevels = [] ∧
          (summarize_policy p).signInRiskLevels = [] ∧
          (summarize_policy p).platformsInclude = [] ∧
          (summarize_policy p).platformsExclude = [] ∧
          (summarize_policy p).locationsInclude = [] ∧
          (summarize_policy p).locationsExclude = []) ∧
      (∀ p : PolicyRecord, p.sessionControls = .missing →
        (summarize_policy p).sessionControls = []) := by
  refine ⟨fun p h => ?_, fun p gc h => ?_, fun p h => ?_, fun p h => ?_⟩ <;>
    simp [summarize_policy, h, PyField.orDefault, emptyGrantControls, emptyConditions,
      emptyUsersCond, emptyAppsCond, emptyLocsCond, emptyPlatsCond]

/-- C7 witness: the defaults theorem applied to the policy record with every
field absent. -/
theorem summarize_policy_defaults_witness :
    (summarize_policy ⟨none, none, .missing, .missing, .missing, []⟩).grantOperator = "AND" ∧
      (summarize_policy ⟨none, none, .missing, .missing, .missing, []⟩).grantControls = [] :=
  summarize_policy_defaults.1 ⟨none, none, .missing, .missing, .missing, []⟩ rfl

/-- C8: the normalizer is total — a `null` where an object was expected is
handled exactly like an absent object (at `conditions`, `grantControls`,
`sessionControls` and at every nested condition object), and the all-empty
policy record produces the fully-defaulted, fully-populated summary. -/
theorem summarize_policy_null_safe :
    (∀ p : PolicyRecord,
        summarize_policy { p with conditions := .null } =
            summarize_policy { p with conditions := .missing } ∧
          summarize_policy { p with grantControls := .null } =
            summarize_policy { p with grantControls := .missing } ∧
          summarize_policy { p with sessionControls := .null } =
            summarize_policy { p with sessionControls := .missing }) ∧
      (∀ (p : PolicyRecord) (c : Conditions),
        summarize_policy { p with conditions := .val { c with users := .null } } =
            summarize_policy { p with conditions := .val { c with users := .missing } } ∧
          summarize_policy { p with conditions := .val { c with applications := .null } } =
            summarize_policy { p with conditions := .val { c with applications := .missing } } ∧
          summarize_policy { p with conditions := .val { c with locations := .null } } =
            summarize_policy { p with conditions := .val { c with locations := .missing } } ∧
          summarize_policy { p with conditions := .val { c with devicePlatforms := .null } } =
            summarize_policy { p with conditions := .val { c with devicePlatforms := .missing } }) ∧
      summarize_policy ⟨none, none, .null, .null, .null, []⟩ =
        ⟨"Unknown", "unknown", [], [], [], [], [], [], "AND", [], [], [], [], [], [], []⟩ :=
  ⟨fun _ => ⟨rfl, rfl, rfl⟩, fun _ _ => ⟨rfl, rfl, rfl, rfl⟩, rfl⟩

/-- A freshly prepended cache entry is found first. -/
theorem assoc_find_cons_self (cache : List (String × String)) (k v : String) :
    assoc_find ((k, v) :: cache) k = some v := by
  simp [assoc_find]

/-- Prepending an entry for a different key does not change a lookup. -/
theorem assoc_find_cons_ne (cache : List (String × String)) (k k2 v : String)
    (h : k2 ≠ k) : assoc_find ((k2, v) :: cache) k = assoc_find cache k := by
  simp [assoc_find, h]

/-- A cached id returns its cached value with no cache change and no requests. -/
theorem resolve_hit (dir : Directory) (object_id : String) (cache : Cache) (v : String)
    (h : assoc_find cache object_id = some v) :
    resolve_display_name dir object_id cache = (v, cache, []) := by
  unfold resolve_display_name
  rw [h]

/-- On a cache miss the resolver always returns with the resolved value
prepended to the cache under the requested id. -/
theorem resolve_miss_shape (dir : Directory) (object_id : String) (cache : Cache)
    (h : assoc_find cache object_id = none) :
    ∃ r reqs, resolve_display_name dir object_id cache = (r, (object_id, r) :: cache, reqs) := by
  unfold resolve_display_name
  rw [h]
  rcases hp : probe_objects dir object_id object_probe_entities with ⟨probed, reqs1⟩
  cases probed with
  | some name => exact ⟨name, reqs1, by simp [hp]⟩
  | none =>
    by_cases hg : is_guid object_id
    · rcases hq : probe_appid dir object_id appid_probe_entities with ⟨filtered, reqs2⟩
      cases filtered with
      | some name => exact ⟨name, reqs1 ++ reqs2, by simp [hp, hq, hg]⟩
      | none => exact ⟨object_id, reqs1 ++ reqs2, by simp [hp, hq, hg]⟩
    · exact ⟨object_id, reqs1, by simp [hp, hg]⟩

/-- Every resolver call leaves the cache mapping the requested id to the
returned value. -/
theorem resolve_writes_cache (dir : Directory) (object_id : String) (cache : Cache) :
    assoc_find (resolve_display_name dir object_id cache).2.1 object_id =
      some (resolve_display_name dir object_id cache).1 := by
  cases h : assoc_find cache object_id with
  | some v => rw [resolve_hit dir object_id cache v h]; exact h
  | none =>
    obtain ⟨r, reqs, hr⟩ := resolve_miss_shape dir object_id cache h
    rw [hr]
    exact assoc_find_cons_self cache object_id r

/-- A resolver call never disturbs an existing cache entry. -/
theorem resolve_preserves_entry (dir : Directory) (object_id : String) (cache : Cache)
    (k v : String) (h : assoc_find cache k = some v) :
    assoc_find (resolve_display_name dir object_id cache).2.1 k = some v := by
  cases h0 : assoc_find cache object_id with
  | some w => rw [resolve_hit dir object_id cache w h0]; exact h
  | none =>
    obtain ⟨r, reqs, hr⟩ := resolve_miss_shape dir object_id cache h0
    rw [hr]
    have hne : object_id ≠ k := by
      intro he
      rw [he, h] at h0
      cases h0
    rw [assoc_find_cons_ne cache k object_id r hne]
    exact h

/-- C3: the cache is write-once — the resolver leaves the requested id mapped
to its result, never disturbs any populated entry, and a second call for the
same id with the resulting cache returns the identical result, the identical
cache, and an empty request log. -/
theorem resolver_cache_write_once (dir : Directory) (object_id : String) (cache : Cache) :
    assoc_find (resolve_display_name dir object_id cache).2.1 object_id =
        some (resolve_display_name dir object_id cache).1 ∧
      (∀ k v, assoc_find cache k = some v →
        assoc_find (resolve_display_name dir object_id cache).2.1 k = some v) ∧
      resolve_display_name dir object_id (resolve_display_name dir object_id cache).2.1 =
        ((resolve_display_name dir object_id cache).1,
          (resolve_display_name dir object_id cache).2.1, []) :=
  ⟨resolve_writes_cache dir object_id cache,
    fun k v h => resolve_preserves_entry dir object_id cache k v h,
    resolve_hit dir _ _ _ (resolve_writes_cache dir object_id cache)⟩

/-- A small concrete directory: only the group lookup for `grp-0001` is found,
with display name `Admins`. -/
def demo_directory : Directory :=
  { obj := fun entity object_id =>
      if entity == "groups" && object_id == "grp-0001" then
        some ⟨some "Admins", none, none⟩
      else none,
    appIdQuery := fun _ _ => none }

/-- C3 witness: the write-once theorem evaluated on the demo directory. -/
theorem resolver_cache_write_once_witness :
    assoc_find (resolve_display_name demo_directory "grp-0001" []).2.1 "grp-0001" =
        some (resolve_display_name demo_directory "grp-0001" []).1 ∧
      resolve_display_name demo_directory "grp-0001"
          (resolve_display_name demo_directory "grp-0001" []).2.1 =
        ((resolve_display_name demo_directory "grp-0001" []).1,
          (resolve_display_name demo_directory "grp-0001" []).2.1, []) :=
  ⟨(resolver_cache_write_once demo_directory "grp-0001" []).1,
    (resolver_cache_write_once demo_directory "grp-0001" []).2.2⟩

/-- C4: for an uncached id where the service-principal, application and user
probes are not found and the group probe is found, the resolver issues exactly
the four object lookups in the fixed order service principal, application,
user, group, and returns the group's display name. -/
theorem resolver_fallback_ordering (dir : Directory) (object_id name : String)
    (cache : Cache) (ad up : Option String)
    (hc : assoc_find cache object_id = none)
    (hsp : dir.obj "servicePrincipals" object_id = none)
    (hap : dir.obj "applications" object_id = none)
    (hus : dir.obj "users" object_id = none)
    (hgr : dir.obj "groups" object_id = some ⟨some name, ad, up⟩)
    (hname : name ≠ "") :
    resolve_display_name dir object_id cache =
      (name, (object_id, name) :: cache,
        [Request.objLookup "servicePrincipals" object_id,
          Request.objLookup "applications" object_id,
          Request.objLookup "users" object_id,
          Request.objLookup "groups" object_id]) := by
  have hp : probe_objects dir object_id object_probe_entities =
      (some name,
        [Request.objLookup "servicePrincipals" object_id,
          Request.objLookup "applications" object_id,
          Request.objLookup "users" object_id,
          Request.objLookup "groups" object_id]) := by
    unfold object_probe_entities
    simp [probe_objects, hsp, hap, hus, hgr, py_str_or, hname]
  unfold resolve_display_name
  rw [hc, hp]

/-- C4 witness: on the demo directory only the group probe for `grp-0001`
succeeds, and the four probes run in the fixed order. -/
theorem resolver_fallback_ordering_witness :
    resolve_display_name demo_directory "grp-0001" [] =
      ("Admins", [("grp-0001", "Admins")],
        [Request.objLookup "servicePrincipals" "grp-0001",
          Request.objLookup "applications" "grp-0001",
          Request.objLookup "users" "grp-0001",
          Request.objLookup "groups" "grp-0001"]) :=
  resolver_fallback_ordering demo_directory "grp-0001" "Admins" [] none none
    (by decide) (by decide) (by decide) (by decide) (by decide) (by decide)

/-- Python's falsy-or on strings never yields the empty string when its
fallback is non-empty. -/
theorem py_str_or_ne_empty (x : Option String) (y : String) (hy : y ≠ "") :
    py_str_or x y ≠ "" := by
  cases x with
  | none => simpa [py_str_or]
  | some s => by_cases hs : s = "" <;> simp [py_str_or, hs, hy]

/-- A successful object probe for a non-empty id returns a non-empty name. -/
theorem probe_objects_ne_empty (dir : Directory) (object_id : String)
    (entities : List String) (name : String) (reqs : List Request)
    (hid : object_id ≠ "")
    (h : probe_objects dir object_id entities = (some name, reqs)) : name ≠ "" := by
  induction entities generalizing reqs with
  | nil => simp [probe_objects] at h
  | cons e rest ih =>
    rw [probe_objects] at h
    cases he : dir.obj e object_id with
    | some data =>
      rw [he] at h
      have hn : name = py_str_or data.displayName (py_str_or data.appDisplayName
          (py_str_or data.userPrincipalName object_id)) := by
        have := congrArg Prod.fst h
        simp at this
        exact this.symm
      rw [hn]
      exact py_str_or_ne_empty _ _ (py_str_or_ne_empty _ _ (py_str_or_ne_empty _ _ hid))
    | none =>
      rw [he] at h
      rcases hrec : probe_objects dir object_id rest with ⟨res, rs⟩
      rw [hrec] at h
      cases res with
      | some n2 =>
        have : name = n2 := by
          have := congrArg Prod.fst h
          simp at this
          exact this.symm
        subst this
        exact ih rs hrec
      | none => simp at h

/-- A successful appId probe for a non-empty id returns a non-empty name. -/
theorem probe_appid_ne_empty (dir : Directory) (object_id : String)
    (entities : List String) (name : String) (reqs : List Request)
    (hid : object_id ≠ "")
    (h : probe_appid dir object_id entities = (some name, reqs)) : name ≠ "" := by
  induction entities generalizing reqs with
  | nil => simp [probe_appid] at h
  | cons e rest ih =>
    rw [probe_appid] at h
    cases he : dir.appIdQuery e object_id with
    | some lst =>
      cases lst with
      | cons data tail =>
        rw [he] at h
        have hn : name = py_str_or data.displayName (py_str_or data.appDisplayName object_id) := by
          have := congrArg Prod.fst h
          simp at this
          exact this.symm
        rw [hn]
        exact py_str_or_ne_empty _ _ (py_str_or_ne_empty _ _ hid)
      | nil =>
        rw [he] at h
        rcases hrec : probe_appid dir object_id rest with ⟨res, rs⟩
        rw [hrec] at h
        cases res with
        | some n2 =>
          have : name = n2 := by
            have := congrArg Prod.fst h
            simp at this
            exact this.symm
          subst this
          exact ih rs hrec
        | none => simp at h
    | none =>
      rw [he] at h
      rcases hrec : probe_appid dir object_id rest with ⟨res, rs⟩
      rw [hrec] at h
      cases res with
      | some n2 =>
        have : name = n2 := by
          have := congrArg Prod.fst h
          simp at this
          exact this.symm
        subst this
        exact ih rs hrec
      | none => simp at h

/-- When every entity probe is not found, the object loop fails after issuing
one lookup per entity, in order. -/
theorem probe_objects_all_fail (dir : Directory) (object_id : String)
    (entities : List String)
    (h : ∀ e ∈ entities, dir.obj e object_id = none) :
    probe_objects dir object_id entities =
      (none, entities.map (Request.objLookup · object_id)) := by
  induction entities with
  | nil => simp [probe_objects]
  | cons e rest ih =>
    have he : dir.obj e object_id = none := h e (by simp)
    have hrest := ih fun e2 h2 => h e2 (by simp [h2])
    simp [probe_objects, he, hrest]

/-- When every appId query is non-200 or returns an empty list, the appId loop
fails after issuing one filter query per entity, in order. -/
theorem probe_appid_all_fail (dir : Directory) (object_id : String)
    (entities : List String)
    (h : ∀ e ∈ entities,
      dir.appIdQuery e object_id = none ∨ dir.appIdQuery e object_id = some []) :
    probe_appid dir object_id entities =
      (none, entities.map (Request.appIdFilter · object_id)) := by
  induction entities with
  | nil => simp [probe_appid]
  | cons e rest ih =>
    have hrest := ih fun e2 h2 => h e2 (by simp [h2])
    rcases h e (by simp) with he | he <;> simp [probe_appid, he, hrest]

/-- When the id is uncached and every probe fails, the resolver returns the id
itself. -/
theorem resolve_all_fail (dir : Directory) (object_id : String) (cache : Cache)
    (hc : assoc_find cache object_id = none)
    (hobj : ∀ e ∈ object_probe_entities, dir.obj e object_id = none)
    (happ : ∀ e ∈ appid_probe_entities,
      dir.appIdQuery e object_id = none ∨ dir.appIdQuery e object_id = some []) :
    (resolve_display_name dir object_id cache).1 = object_id := by
  unfold resolve_display_name
  rw [hc, probe_objects_all_fail dir object_id _ hobj]
  by_cases hg : is_guid object_id
  · rw [probe_appid_all_fail dir object_id _ happ]
    simp [hg]
  · simp [hg]

/-- For a non-empty id and a cache whose entry for it (if any) is non-empty,
the resolver result is non-empty. -/
theorem resolve_ne_empty (dir : Directory) (object_id : String) (cache : Cache)
    (hid : object_id ≠ "")
    (hcache : ∀ v, assoc_find cache object_id = some v → v ≠ "") :
    (resolve_display_name dir object_id cache).1 ≠ "" := by
  cases h : assoc_find cache object_id with
  | some v => rw [resolve_hit dir object_id cache v h]; exact hcache v h
  | none =>
    unfold resolve_display_name
    rw [h]
    rcases hp : probe_objects dir object_id object_probe_entities with ⟨probed, reqs1⟩
    cases probed with
    | some name =>
      simpa using probe_objects_ne_empty dir object_id object_probe_entities name reqs1 hid hp
    | none =>
      by_cases hg : is_guid object_id
      · rcases hq : probe_appid dir object_id appid_probe_entities with ⟨filtered, reqs2⟩
        cases filtered with
        | some name =>
          simpa [hg, hq] using probe_appid_ne_empty dir object_id appid_probe_entities name reqs2 hid hq
        | none => simpa [hg, hq] using hid
      · simpa [hg] using hid

/-- C5: the resolver is total — for a non-empty id (against a cache whose
entry for it, if any, is non-empty) it returns a non-empty string, the result
is in the cache on return, and when the id is uncached and every object-id
probe and appId query fails the id itself is the result. -/
theorem resolver_totality (dir : Directory) (object_id : String) (cache : Cache)
    (hid : object_id ≠ "")
    (hcache : ∀ v, assoc_find cache object_id = some v → v ≠ "") :
    (resolve_display_name dir object_id cache).1 ≠ "" ∧
      assoc_find (resolve_display_name dir object_id cache).2.1 object_id =
        some (resolve_display_name dir object_id cache).1 ∧
      (assoc_find cache object_id = none →
        (∀ e ∈ object_probe_entities, dir.obj e object_id = none) →
        (∀ e ∈ appid_probe_entities,
          dir.appIdQuery e object_id = none ∨ dir.appIdQuery e object_id = some []) →
        (resolve_display_name dir object_id cache).1 = object_id) :=
  ⟨resolve_ne_empty dir object_id cache hid hcache,
    resolve_writes_cache dir object_id cache,
    fun hc hobj happ => resolve_all_fail dir object_id cache hc hobj happ⟩

/-- A directory where every lookup fails. -/
def failing_directory : Directory :=
  { obj := fun _ _ => none, appIdQuery := fun _ _ => none }

/-- C5 witness: the totality theorem evaluated on an unknown id against the
failing directory — the id resolves to itself, non-empty, and is cached. -/
theorem resolver_totality_witness :
    (resolve_display_name failing_directory "unknown-object-42" []).1 ≠ "" ∧
      (resolve_display_name failing_directory "unknown-object-42" []).1 = "unknown-object-42" :=
  ⟨(resolver_totality failing_directory "unknown-object-42" [] (by decide)
      (fun v hv => by simp [assoc_find] at hv)).1,
    (resolver_totality failing_directory "unknown-object-42" [] (by decide)
        (fun v hv => by simp [assoc_find] at hv)).2.2 rfl
      (fun e _ => rfl) (fun e _ => Or.inl rfl)⟩

/-- Overwriting a key leaves the new value at that key (when it was present). -/
theorem assoc_find_overwrite_self (m : List (String × String)) (k v : String)
    (h : (assoc_find m k).isSome = true) :
    assoc_find (dict_overwrite k v m) k = some v := by
  induction m with
  | nil => simp [assoc_find] at h
  | cons p rest ih =>
    rcases p with ⟨k2, w⟩
    by_cases hk : k2 = k
    · simp only [dict_overwrite]
      rw [if_pos hk]
      simp [assoc_find]
    · simp only [dict_overwrite]
      rw [if_neg hk]
      simp only [assoc_find] at h ⊢
      rw [if_neg hk] at h ⊢
      exact ih h

/-- Overwriting one key leaves lookups of other keys unchanged. -/
theorem assoc_find_overwrite_ne (m : List (String × String)) (k v k2 : String)
    (hne : k2 ≠ k) :
    assoc_find (dict_overwrite k v m) k2 = assoc_find m k2 := by
  induction m with
  | nil => simp [dict_overwrite]
  | cons p rest ih =>
    rcases p with ⟨k3, w⟩
    by_cases hk : k3 = k
    · simp only [dict_overwrite]
      rw [if_pos hk]
      have h1 : ¬ k = k2 := fun hc => hne hc.symm
      have h2 : ¬ k3 = k2 := by rw [hk]; exact h1
      simp only [assoc_find]
      rw [if_neg h1, if_neg h2]
      exact ih
    · simp only [dict_overwrite]
      rw [if_neg hk]
      by_cases h2 : k3 = k2
      · simp only [assoc_find]
        rw [if_pos h2, if_pos h2]
      · simp only [assoc_find]
        rw [if_neg h2, if_neg h2]
        exact ih

/-- A key absent from the first list is looked up in the second. -/
theorem assoc_find_append_of_none (m l : List (String × String)) (k : String)
    (h : assoc_find m k = none) :
    assoc_find (m ++ l) k = assoc_find l k := by
  induction m with
  | nil => simp
  | cons p rest ih =>
    rcases p with ⟨k2, w⟩
    by_cases hk : k2 = k
    · simp only [assoc_find] at h
      rw [if_pos hk] at h
      cases h
    · simp only [List.cons_append, assoc_find] at h ⊢
      rw [if_neg hk] at h ⊢
      exact ih h

/-- A key found in the first list is found in the concatenation. -/
theorem assoc_find_append_of_some (m l : List (String × String)) (k w : String)
    (h : assoc_find m k = some w) :
    assoc_find (m ++ l) k = some w := by
  induction m with
  | nil => simp [assoc_find] at h
  | cons p rest ih =>
    rcases p with ⟨k2, v2⟩
    by_cases hk : k2 = k
    · simp only [assoc_find] at h
      rw [if_pos hk] at h
      simp only [List.cons_append, assoc_find]
      rw [if_pos hk]
      exact h
    · simp only [List.cons_append, assoc_find] at h ⊢
      rw [if_neg hk] at h ⊢
      exact ih h

/-- Dictionary assignment places the value at the key. -/
theorem assoc_find_dict_insert_self (m : List (String × String)) (k v : String) :
    assoc_find (dict_insert m k v) k = some v := by
  unfold dict_insert
  by_cases h : (assoc_find m k).isSome = true
  · rw [if_pos h]
    exact assoc_find_overwrite_self m k v h
  · rw [if_neg h]
    have hn : assoc_find m k = none := by
      cases hm : assoc_find m k with
      | some w => rw [hm] at h; simp at h
      | none => rfl
    rw [assoc_find_append_of_none m [(k, v)] k hn]
    simp [assoc_find]

/-- Dictionary assignment keeps every populated key populated. -/
theorem assoc_find_dict_insert_preserves (m : List (String × String)) (k v k2 : String)
    (h : (assoc_find m k2).isSome = true) :
    (assoc_find (dict_insert m k v) k2).isSome = true := by
  by_cases he : k2 = k
  · rw [he, assoc_find_dict_insert_self]
    rfl
  · unfold dict_insert
    by_cases ha : (assoc_find m k).isSome = true
    · rw [if_pos ha, assoc_find_overwrite_ne m k v k2 he]
      exact h
    · rw [if_neg ha]
      cases hm : assoc_find m k2 with
      | some w =>
        rw [assoc_find_append_of_some m [(k, v)] k2 w hm]
        rfl
      | none => rw [hm] at h; cases h

/-- Accumulating a page keeps every populated key populated. -/
theorem insert_page_preserves (locs : List NamedLoc) (m : LocMap) (k : String)
    (h : (assoc_find m k).isSome = true) :
    (assoc_find (insert_page m locs) k).isSome = true := by
  induction locs generalizing m with
  | nil => exact h
  | cons loc rest ih =>
    exact ih _ (assoc_find_dict_insert_preserves m loc.id (loc.displayName.getD loc.id) k h)

/-- After accumulating a page, every id of the page is a key. -/
theorem insert_page_mem (locs : List NamedLoc) (m : LocMap) (loc : NamedLoc)
    (h : loc ∈ locs) :
    (assoc_find (insert_page m locs) loc.id).isSome = true := by
  induction locs generalizing m with
  | nil => cases h
  | cons l rest ih =>
    have hstep : insert_page m (l :: rest) =
        insert_page (dict_insert m l.id (l.displayName.getD l.id)) rest := rfl
    rw [hstep]
    rcases List.mem_cons.mp h with he | hm
    · subst he
      apply insert_page_preserves
      rw [assoc_find_dict_insert_self]
      rfl
    · exact ih _ hm

/-- The pagination loop keeps every populated key populated. -/
theorem named_locations_loop_preserves (pages : List LocPage) (acc : LocMap) (k : String)
    (h : (assoc_find acc k).isSome = true) :
    (assoc_find (get_named_locations_loop pages acc) k).isSome = true := by
  induction pages generalizing acc with
  | nil => exact h
  | cons page rest ih =>
    have h2 := insert_page_preserves page.value acc k h
    cases hn : page.nextLink with
    | some link => simpa [get_named_locations_loop, hn] using ih _ h2
    | none => simpa [get_named_locations_loop, hn] using h2

/-- A page member of a well-linked chain reaches every page of the chain. -/
theorem named_locations_loop_complete (pages : List LocPage) (acc : LocMap)
    (hch : chained pages = true) :
    ∀ page ∈ pages, ∀ loc ∈ page.value,
      (assoc_find (get_named_locations_loop pages acc) loc.id).isSome = true := by
  induction pages generalizing acc with
  | nil => intro page hp; cases hp
  | cons p rest ih =>
    intro page hp loc hl
    rcases List.mem_cons.mp hp with he | hm
    · subst he
      have h1 := insert_page_mem page.value acc loc hl
      cases hn : page.nextLink with
      | some link =>
        simpa [get_named_locations_loop, hn] using
          named_locations_loop_preserves rest _ loc.id h1
      | none => simpa [get_named_locations_loop, hn] using h1
    · have hrest : rest ≠ [] := List.ne_nil_of_mem hm
      have hlink : p.nextLink.isSome = true ∧ chained rest = true := by
        cases rest with
        | nil => cases hrest rfl
        | cons q qs =>
          simpa [chained, Bool.and_eq_true] using hch
      rcases hn : p.nextLink with _ | link
      · rw [hn] at hlink
        cases hlink.1
      · simpa [get_named_locations_loop, hn] using
          ih _ hlink.2 page hm loc hl

/-- C6: for a well-linked chain of named-location pages, the resolver's
mapping contains every location id appearing on any page. -/
theorem named_locations_pagination (pages : List LocPage)
    (hch : chained pages = true) :
    ∀ page ∈ pages, ∀ loc ∈ page.value,
      (assoc_find (get_named_locations pages) loc.id).isSome = true := by
  unfold get_named_locations
  exact named_locations_loop_complete pages [] hch

/-- Three cursor-linked pages of sizes 2, 2, 1 with distinct ids. -/
def demo_pages : List LocPage :=
  [⟨[⟨"loc-1", some "HQ"⟩, ⟨"loc-2", some "Branch"⟩], some "page-2"⟩,
    ⟨[⟨"loc-3", none⟩, ⟨"loc-4", some "DC"⟩], some "page-3"⟩,
    ⟨[⟨"loc-5", some "Lab"⟩], none⟩]

/-- C6 witness: the three demo pages produce exactly 5 entries with no
duplicate keys, and the pagination theorem applies to the last page's id. -/
theorem named_locations_pagination_witness :
    (get_named_locations demo_pages).length = 5 ∧
      ((get_named_locations demo_pages).map Prod.fst).Nodup ∧
      (assoc_find (get_named_locations demo_pages) "loc-5").isSome = true :=
  ⟨by decide, by decide,
    named_locations_pagination demo_pages (by decide)
      ⟨[⟨"loc-5", some "Lab"⟩], none⟩ (by decide) ⟨"loc-5", some "Lab"⟩ (by decide)⟩

/-- One rewritten policy agrees with its input on everything outside the seven
identifier list fields. -/
theorem rewrite_policy_scrub (dir : Directory) (named : LocMap)
    (policy : PolicyRecord) (cache : Cache) :
    scrub_id_fields (rewrite_policy dir named policy cache).1 = scrub_id_fields policy := by
  cases policy with
  | mk dn st conds gc sc rest =>
    cases conds with
    | missing => rfl
    | null => rfl
    | val cond =>
      cases cond with
      | mk users apps locs plats ur sr crest =>
        cases users <;> cases apps <;> cases locs <;> rfl

/-- The rewritten policy list agrees with the input list after erasing the
seven identifier fields. -/
theorem rewrite_policies_scrub (dir : Directory) (named : LocMap)
    (policies : List PolicyRecord) (cache : Cache) :
    ((rewrite_policies dir named policies cache).1).map scrub_id_fields =
      policies.map scrub_id_fields := by
  induction policies generalizing cache with
  | nil => rfl
  | cons p ps ih =>
    simp only [rewrite_policies, List.map_cons]
    rw [rewrite_policy_scrub, ih]

/-- C10: the rewrite pass changes only the seven identifier list fields —
after erasing them the output document equals the input document, including
every other field of every policy and every untouched key. -/
theorem rewrite_pass_frame (dir : Directory) (data : Document) (cache : Cache)
    (named : LocMap) :
    (replace_ids_with_names dir data cache named).1.value.map
          (fun ps => ps.map scrub_id_fields) =
        data.value.map (fun ps => ps.map scrub_id_fields) ∧
      (replace_ids_with_names dir data cache named).1.rest = data.rest := by
  cases data with
  | mk v rest =>
    cases v with
    | none => exact ⟨rfl, rfl⟩
    | some policies =>
      refine ⟨?_, rfl⟩
      simp [replace_ids_with_names, rewrite_policies_scrub]

/-- Resolving a list of fully-cached ids is a pure cache lookup: no cache
change and no requests. -/
theorem resolve_list_all_hit (dir : Directory) (ids : List String) (cache : Cache)
    (h : ∀ i ∈ ids, (assoc_find cache i).isSome = true) :
    resolve_list dir ids cache =
      (ids.map fun i => (assoc_find cache i).getD i, cache, []) := by
  induction ids with
  | nil => rfl
  | cons i rest ih =>
    obtain ⟨v, hv⟩ := Option.isSome_iff_exists.mp (h i (by simp))
    have hrest := ih fun j hj => h j (by simp [hj])
    simp [resolve_list, resolve_hit dir i cache v hv, hrest, hv]

/-- Rewriting a `users` object whose ids are all cached equals the spec's pure
cache-lookup rewrite. -/
theorem rewrite_users_all_hit (dir : Directory) (u : UsersCond) (cache : Cache)
    (h : ∀ i ∈ u.includeUsers.getD [] ++ u.excludeUsers.getD [] ++ u.includeGroups.getD [],
      (assoc_find cache i).isSome = true) :
    rewrite_users dir u cache = (rewrite_spec_users cache u, cache, []) := by
  have h1 := resolve_list_all_hit dir (u.includeUsers.getD []) cache
    fun i hi => h i (by simp [hi])
  have h2 := resolve_list_all_hit dir (u.excludeUsers.getD []) cache
    fun i hi => h i (by simp [hi])
  have h3 := resolve_list_all_hit dir (u.includeGroups.getD []) cache
    fun i hi => h i (by simp [hi])
  simp [rewrite_users, h1, h2, h3, rewrite_spec_users]

/-- Rewriting an `applications` object whose ids are all cached equals the
spec's pure cache-lookup rewrite. -/
theorem rewrite_apps_all_hit (dir : Directory) (a : AppsCond) (cache : Cache)
    (h : ∀ i ∈ a.includeApplications.getD [] ++ a.excludeApplications.getD [],
      (assoc_find cache i).isSome = true) :
    rewrite_apps dir a cache = (rewrite_spec_apps cache a, cache, []) := by
  have h1 := resolve_list_all_hit dir (a.includeApplications.getD []) cache
    fun i hi => h i (by simp [hi])
  have h2 := resolve_list_all_hit dir (a.excludeApplications.getD []) cache
    fun i hi => h i (by simp [hi])
  simp [rewrite_apps, h1, h2, rewrite_spec_apps]

/-- Rewriting one policy whose resolvable ids are all cached equals the spec's
pure rewrite, with no cache change and no requests. -/
theorem rewrite_policy_all_hit (dir : Directory) (named : LocMap)
    (policy : PolicyRecord) (cache : Cache)
    (h : ∀ i ∈ policy_resolved_ids policy, (assoc_find cache i).isSome = true) :
    rewrite_policy dir named policy cache =
      (rewrite_spec_policy cache named policy, cache, []) := by
  cases hp : policy.conditions with
  | missing => simp [rewrite_policy, rewrite_spec_policy, hp]
  | null => simp [rewrite_policy, rewrite_spec_policy, hp]
  | val cond =>
    have hids : ∀ i ∈ (match cond.users with
        | .val u => u.includeUsers.getD [] ++ u.excludeUsers.getD [] ++ u.includeGroups.getD []
        | _ => ([] : List String)) ++
        (match cond.applications with
          | .val a => a.includeApplications.getD [] ++ a.excludeApplications.getD []
          | _ => ([] : List String)),
        (assoc_find cache i).isSome = true := by
      intro i hi
      apply h
      unfold policy_resolved_ids
      rw [hp]
      exact hi
    cases hu : cond.users with
    | val u =>
      have hu2 := rewrite_users_all_hit dir u cache fun i hi => hids i (by
        rw [hu]; simp only [List.mem_append] at hi ⊢; tauto)
      cases ha : cond.applications with
      | val a =>
        have ha2 := rewrite_apps_all_hit dir a cache fun i hi => hids i (by
          rw [ha]; simp only [List.mem_append] at hi ⊢; tauto)
        simp [rewrite_policy, rewrite_spec_policy, hp, hu, ha, hu2, ha2]
      | missing => simp [rewrite_policy, rewrite_spec_policy, hp, hu, ha, hu2]
      | null => simp [rewrite_policy, rewrite_spec_policy, hp, hu, ha, hu2]
    | missing =>
      cases ha : cond.applications with
      | val a =>
        have ha2 := rewrite_apps_all_hit dir a cache fun i hi => hids i (by
          rw [hu, ha]; simp only [List.mem_append] at hi ⊢; tauto)
        simp [rewrite_policy, rewrite_spec_policy, hp, hu, ha, ha2]
      | missing => simp [rewrite_policy, rewrite_spec_policy, hp, hu, ha]
      | null => simp [rewrite_policy, rewrite_spec_policy, hp, hu, ha]
    | null =>
      cases ha : cond.applications with
      | val a =>
        have ha2 := rewrite_apps_all_hit dir a cache fun i hi => hids i (by
          rw [hu, ha]; simp only [List.mem_append] at hi ⊢; tauto)
        simp [rewrite_policy, rewrite_spec_policy, hp, hu, ha, ha2]
      | missing => simp [rewrite_policy, rewrite_spec_policy, hp, hu, ha]
      | null => simp [rewrite_policy, rewrite_spec_policy, hp, hu, ha]

/-- Rewriting a policy list whose resolvable ids are all cached equals the
spec's pure rewrite on every policy, with no cache change and no requests. -/
theorem rewrite_policies_all_hit (dir : Directory) (named : LocMap)
    (policies : List PolicyRecord) (cache : Cache)
    (h : ∀ i ∈ policies.flatMap policy_resolved_ids, (assoc_find cache i).isSome = true) :
    rewrite_policies dir named policies cache =
      (policies.map (rewrite_spec_policy cache named), cache, []) := by
  induction policies with
  | nil => rfl
  | cons p ps ih =>
    have hp := rewrite_policy_all_hit dir named p cache fun i hi => h i (by
      simp only [List.flatMap_cons, List.mem_append]; exact Or.inl hi)
    have hps := ih fun i hi => h i (by
      simp only [List.flatMap_cons, List.mem_append]; exact Or.inr hi)
    simp [rewrite_policies, hp, hps]

/-- C1 (amended): when every identifier in the five identity lists of every
policy is already in the cache, the rewrite pass issues no requests, leaves
the cache unchanged, and its output is the pure cache-lookup rewrite of the
document — a function of the document, the cache, and the location map only. -/
theorem rewrite_pass_pure_when_cached (dir : Directory) (data : Document)
    (cache : Cache) (named : LocMap)
    (h : ∀ i ∈ document_resolved_ids data, (assoc_find cache i).isSome = true) :
    replace_ids_with_names dir data cache named =
      (rewrite_spec data cache named, cache, []) := by
  cases data with
  | mk v rest =>
    cases v with
    | none => rfl
    | some policies =>
      have hall := rewrite_policies_all_hit dir named policies cache fun i hi =>
        h i (by simpa [document_resolved_ids] using hi)
      simp [replace_ids_with_names, rewrite_spec, hall]

/-- A directory whose only found object is the service principal
`user-0001-xyz`, named `Alice Adams`. -/
def c1_directory : Directory :=
  { obj := fun entity object_id =>
      if entity == "servicePrincipals" && object_id == "user-0001-xyz" then
        some ⟨some "Alice Adams", none, none⟩
      else none,
    appIdQuery := fun _ _ => none }

/-- A one-policy document whose `includeUsers` holds the single id
`user-0001-xyz`. -/
def c1_document : Document :=
  ⟨some [⟨some "P1", some "enabled",
      .val ⟨.val ⟨some ["user-0001-xyz"], some [], some [], []⟩,
        .missing, .missing, .missing, none, none, []⟩,
      .missing, .missing, []⟩],
    []⟩

/-- C1 counterexample: with an empty identity cache the rewrite pass issues a
network request for the uncached id (so it is not network-free), and its
output differs from the claimed pure cache-lookup-with-raw-id-fallback
rewrite — the id comes back as the directory's `Alice Adams`, not as the raw
id. -/
theorem rewrite_pass_not_pure_counterexample :
    (replace_ids_with_names c1_directory c1_document [] []).2.2 ≠ [] ∧
      (replace_ids_with_names c1_directory c1_document [] []).1 ≠
        rewrite_spec c1_document [] [] := by
  decide

/-- C1 witness: with `user-0001-xyz` pre-cached as `Alice Adams`, the amended
theorem applies — the pass issues no requests and equals the pure rewrite. -/
theorem rewrite_pass_pure_when_cached_witness :
    replace_ids_with_names c1_directory c1_document
        [("user-0001-xyz", "Alice Adams")] [] =
      (rewrite_spec c1_document [("user-0001-xyz", "Alice Adams")] [],
        [("user-0001-xyz", "Alice Adams")], []) :=
  rewrite_pass_pure_when_cached c1_directory c1_document
    [("user-0001-xyz", "Alice Adams")] [] (by decide)

/-- C9 witness: the classifier evaluated at the three concrete grant-control
lists of the claim. -/
theorem is_mfa_policy_characterisation_witness :
    is_mfa_policy (summary_of_grants ["Mfa"]) = true ∧
      is_mfa_policy (summary_of_grants ["requireMultifactorAuthentication"]) = true ∧
      is_mfa_policy (summary_of_grants ["compliantDevice"]) = false :=
  ⟨is_mfa_policy_characterisation.2.1, is_mfa_policy_characterisation.2.2.1,
    is_mfa_policy_characterisation.2.2.2⟩

/-- C8 witness: the totality theorem evaluated at the all-empty policy. -/
theorem summarize_policy_null_safe_witness :
    summarize_policy ⟨none, none, .null, .null, .null, []⟩ =
      ⟨"Unknown", "unknown", [], [], [], [], [], [], "AND", [], [], [], [], [], [], []⟩ :=
  summarize_policy_null_safe.2.2

/-- C10 witness: the frame theorem evaluated on the one-policy demo document
with an empty cache. -/
theorem rewrite_pass_frame_witness :
    (replace_ids_with_names c1_directory c1_document [] []).1.rest = c1_document.rest :=
  (rewrite_pass_frame c1_directory c1_document [] []).2
